import Mathlib

/-!
Shallow embedding of the vote activity handler of the lemmy repository
(file crates/apub/src/activities/voting/vote.rs) together with a model of
its external collaborators as described by the accompanying design
document. Machine integers (i16) are modelled as Int; URLs as String.
Functions whose bodies live in other crates of the repository are marked
`Modelled from the spec:` in their doc comment and follow the wording of
the design document.
-/

deriving instance DecidableEq for Except

/-- URLs are modelled by plain strings. -/
abbrev Url := String

/-- Embedding of the LemmyError values that the modelled fragment can
produce. The Rust code builds errors from anyhow messages; named trust
and resource errors follow the taxonomy of the design document, and `Msg`
embeds an anyhow string error such as the invalid vote value error. -/
inductive LemmyError where
  | MalformedActivity
  | UnauthorizedActor
  | RecursionBudgetExceeded
  | DomainMismatch
  | UnresolvableReference
  | CommunityNotFound
  | Msg (s : String)
deriving DecidableEq

/-- Embedding of the Rust enum VoteType with variants Like and Dislike. -/
inductive VoteType where
  | Like
  | Dislike
deriving DecidableEq

/-- Embedding of `impl TryFrom i16 for VoteType`: 1 maps to Like, -1 to
Dislike, everything else to the anyhow error "invalid vote value". -/
def VoteType.try_from (value : Int) : Except LemmyError VoteType :=
  if value = 1 then .ok VoteType.Like
  else if value = -1 then .ok VoteType.Dislike
  else .error (.Msg "invalid vote value")

/-- Embedding of `impl From (ref VoteType) for i16`: Like maps to 1,
Dislike to -1. -/
def VoteType.to_i16 (value : VoteType) : Int :=
  match value with
  | VoteType.Like => 1
  | VoteType.Dislike => -1

/-- Embedding of the fixed-size Rust array type with one element,
as used by the cc field of Vote, declared `cc : [Url; 1]`. -/
structure Array1 (α : Type) where
  elem0 : α
deriving DecidableEq

/-- Indexing into a one-element array: total for any index of Fin 1,
mirroring that `self.cc[0]` can never be out of bounds. -/
def Array1.get {α : Type} (a : Array1 α) (_ : Fin 1) : α := a.elem0

/-- The list of entries of a one-element array. -/
def Array1.toList {α : Type} (a : Array1 α) : List α := [a.elem0]

/-- Embedding of PublicUrl: the single marker value Public used in the
to field of the envelope. -/
inductive PublicUrl where
  | Public
deriving DecidableEq

/-- Embedding of ActivityCommonFields: the fields the visible code reads,
namely the activity id and the actor URI. The JSON-LD context and the
unparsed remainder are irrelevant to the modelled behaviour. -/
structure ActivityCommonFields where
  id : Url
  actor : Url
deriving DecidableEq

/-- Embedding of the Rust struct Vote: the envelope of a vote activity. -/
structure Vote where
  «to» : PublicUrl
  object : Url
  cc : Array1 Url
  kind : VoteType
  common : ActivityCommonFields
deriving DecidableEq

/-- Embedding of a local post record; only the ActivityPub id is relevant. -/
structure Post where
  ap_id : Url
deriving DecidableEq

/-- Embedding of a local comment record; only the ActivityPub id is relevant. -/
structure Comment where
  ap_id : Url
deriving DecidableEq

/-- Embedding of the Rust enum PostOrComment. -/
inductive PostOrComment where
  | Post (p : Post)
  | Comment (c : Comment)
deriving DecidableEq

/-- The ActivityPub id of a post or comment, as read by Vote.send. -/
def PostOrComment.ap_id : PostOrComment → Url
  | PostOrComment.Post p => p.ap_id
  | PostOrComment.Comment c => c.ap_id

/-- Embedding of a person record; only the actor URI is relevant. -/
structure Person where
  actor_id : Url
deriving DecidableEq

/-- Embedding of a community record; only the actor URI is relevant. -/
structure Community where
  actor_id : Url
deriving DecidableEq

/-- Embedding of the Rust enum AnnouncableActivities, restricted to the
Vote variant visible in the fragment. -/
inductive AnnouncableActivities where
  | Vote (v : Vote)
deriving DecidableEq

/-- Association-list lookup keyed by decidable equality; the first entry
with the requested key wins. -/
def lookupA {κ α : Type} [DecidableEq κ] (l : List (κ × α)) (k : κ) : Option α :=
  match l with
  | [] => none
  | p :: rest => if p.1 = k then some p.2 else lookupA rest k

/-- Association-list upsert: the new binding replaces any previous
binding of the same key (last-seen-wins, per the resolver contract). -/
def upsertA {κ α : Type} [DecidableEq κ] (l : List (κ × α)) (k : κ) (v : α) :
    List (κ × α) :=
  (k, v) :: l.filter (fun p => p.1 ≠ k)

/-- The world state threaded through the modelled operations: local
storage (communities, cached persons and objects, membership, per-actor
vote records and aggregate scores), the reachable remote documents, the
activity-id mint counter, and the log of envelopes handed to the
delivery collaborator. -/
structure World where
  communities : List (Nat × Community)
  persons : List (Url × Person)
  remotePersons : List (Url × Person)
  objects : List (Url × PostOrComment)
  remoteObjects : List (Url × PostOrComment)
  members : List (Url × Url)
  votes : List ((Url × Url) × Int)
  scores : List (Url × Int)
  nextActivityId : Nat
  delivered : List (AnnouncableActivities × List Url)
deriving DecidableEq

/-- Modelled from the spec: generate_activity_id mints a fresh
globally-unique activity identifier scoped by the activity kind; modelled
as a string whose length encodes a monotone mint counter so that ids
minted at distinct counter values are distinct. -/
def generate_activity_id (kind : VoteType) (n : Nat) : Url :=
  String.mk (List.replicate (n + 1) (match kind with
    | VoteType.Like => 'l'
    | VoteType.Dislike => 'd'))

/-- Modelled from the spec: the resolver get_or_fetch_and_upsert_person.
A cached record is returned without consuming budget; otherwise an
exhausted budget fails with RecursionBudgetExceeded, an unreachable
document with UnresolvableReference, a fetched document whose declared
identity differs from the requested URI with DomainMismatch, and a valid
fetch is upserted into the local cache. State persists across failures. -/
def get_or_fetch_and_upsert_person (uri : Url) (w : World) (budget : Nat) :
    Except LemmyError Person × World × Nat :=
  match lookupA w.persons uri with
  | some p => (.ok p, w, budget)
  | none =>
    match budget with
    | 0 => (.error .RecursionBudgetExceeded, w, 0)
    | b + 1 =>
      match lookupA w.remotePersons uri with
      | none => (.error .UnresolvableReference, w, b)
      | some p =>
        if p.actor_id = uri then
          (.ok p, { w with persons := upsertA w.persons uri p }, b)
        else (.error .DomainMismatch, w, b)

/-- Modelled from the spec: the resolver
get_or_fetch_and_insert_post_or_comment, with the same fetch-or-create
discipline as the person resolver. -/
def get_or_fetch_and_insert_post_or_comment (uri : Url) (w : World) (budget : Nat) :
    Except LemmyError PostOrComment × World × Nat :=
  match lookupA w.objects uri with
  | some o => (.ok o, w, budget)
  | none =>
    match budget with
    | 0 => (.error .RecursionBudgetExceeded, w, 0)
    | b + 1 =>
      match lookupA w.remoteObjects uri with
      | none => (.error .UnresolvableReference, w, b)
      | some o =>
        if o.ap_id = uri then
          (.ok o, { w with objects := upsertA w.objects uri o }, b)
        else (.error .DomainMismatch, w, b)

/-- Modelled from the spec: verify_activity performs the structural check
on the common fields, failing with MalformedActivity when the id or the
actor URI is empty. -/
def verify_activity (common : ActivityCommonFields) : Except LemmyError Unit :=
  if common.id = "" ∨ common.actor = "" then .error .MalformedActivity
  else .ok ()

/-- Modelled from the spec: verify_person_in_community resolves the actor
URI through the person resolver and then requires the resolved actor to
be a member of the named community, failing with UnauthorizedActor
otherwise. -/
def verify_person_in_community (actorUri communityUri : Url) (w : World) (budget : Nat) :
    Except LemmyError Unit × World × Nat :=
  match get_or_fetch_and_upsert_person actorUri w budget with
  | (.error e, w', b') => (.error e, w', b')
  | (.ok p, w', b') =>
    if (p.actor_id, communityUri) ∈ w'.members then (.ok (), w', b')
    else (.error .UnauthorizedActor, w', b')

/-- Modelled from the spec: the shared vote application of the design
document. It reads the previous vote of the actor on the object
(defaulting to 0 when none is recorded), applies the net delta of the
new value against the previous value to the aggregate score of the
object, and overwrites the stored per-actor vote. -/
def applyVote (w : World) (actorUri objUri : Url) (value : Int) : World :=
  let prev := (lookupA w.votes (actorUri, objUri)).getD 0
  let current := (lookupA w.scores objUri).getD 0
  { w with
    votes := upsertA w.votes (actorUri, objUri) value
    scores := upsertA w.scores objUri (current + (value - prev)) }

/-- Modelled from the spec: vote_post applies the vote of the actor on a
post with the delta derived from the vote kind. -/
def vote_post (kind : VoteType) (actor : Person) (post : Post) (w : World) :
    Except LemmyError Unit × World :=
  (.ok (), applyVote w actor.actor_id post.ap_id (VoteType.to_i16 kind))

/-- Modelled from the spec: vote_comment applies the vote of the actor on
a comment with the delta derived from the vote kind. -/
def vote_comment (kind : VoteType) (actor : Person) (comment : Comment) (w : World) :
    Except LemmyError Unit × World :=
  (.ok (), applyVote w actor.actor_id comment.ap_id (VoteType.to_i16 kind))

/-- Modelled from the spec: send_to_community_new hands the assembled
envelope together with the direct-recipient list to the delivery
collaborator, recorded here as an append to the delivery log. -/
def send_to_community_new (activity : AnnouncableActivities) ( _id : Url)
    ( _actor : Person) ( _community : Community) (inboxes : List Url) (w : World) :
    Except LemmyError Unit × World :=
  (.ok (), { w with delivered := w.delivered ++ [(activity, inboxes)] })

/-- Embedding of Vote.send: reads the community record (CommunityNotFound
when absent), mints a fresh activity id, constructs the envelope with
to = Public, object = object URI, cc = the one-element array holding the
community URI, the given kind, and common fields holding the minted id
and the actor URI, wraps it in AnnouncableActivities.Vote and hands it to
send_to_community_new with an empty inbox list. -/
def Vote.send (object : PostOrComment) (actor : Person) (community_id : Nat)
    (kind : VoteType) (w : World) : Except LemmyError Unit × World :=
  match lookupA w.communities community_id with
  | none => (.error .CommunityNotFound, w)
  | some community =>
    let id := generate_activity_id kind w.nextActivityId
    let w1 := { w with nextActivityId := w.nextActivityId + 1 }
    let vote : Vote :=
      { «to» := PublicUrl.Public
        object := object.ap_id
        cc := ⟨community.actor_id⟩
        kind := kind
        common := { id := id, actor := actor.actor_id } }
    send_to_community_new (AnnouncableActivities.Vote vote) id actor community [] w1

/-- Embedding of Vote.verify: the structural check on the common fields,
then verify_person_in_community on the actor URI and the first cc entry,
short-circuiting on the first failure. -/
def Vote.verify (v : Vote) (w : World) (budget : Nat) :
    Except LemmyError Unit × World × Nat :=
  match verify_activity v.common with
  | .error e => (.error e, w, budget)
  | .ok () => verify_person_in_community v.common.actor (v.cc.get 0) w budget

/-- Embedding of Vote.receive: resolve the actor, resolve the object, and
dispatch on the kind of the resolved object, applying vote_post to a post
and vote_comment to a comment. -/
def Vote.receive (v : Vote) (w : World) (budget : Nat) :
    Except LemmyError Unit × World × Nat :=
  match get_or_fetch_and_upsert_person v.common.actor w budget with
  | (.error e, w', b') => (.error e, w', b')
  | (.ok actor, w1, b1) =>
    match get_or_fetch_and_insert_post_or_comment v.object w1 b1 with
    | (.error e, w', b') => (.error e, w', b')
    | (.ok obj, w2, b2) =>
      match obj with
      | PostOrComment.Post p =>
        let r := vote_post v.kind actor p w2
        (r.1, r.2, b2)
      | PostOrComment.Comment c =>
        let r := vote_comment v.kind actor c w2
        (r.1, r.2, b2)

/-- An empty world used as the base of concrete test states. -/
def emptyWorld : World := ⟨[], [], [], [], [], [], [], [], 0, []⟩

/-- Concrete world with a cached actor that is not a member of any
community. -/
def worldNoMember : World :=
  { emptyWorld with persons := [("u", ⟨"u"⟩)] }

/-- Concrete world with a cached actor, a cached post, and no
memberships. -/
def worldPostCached : World :=
  { emptyWorld with
    persons := [("u", ⟨"u"⟩)]
    objects := [("o", PostOrComment.Post ⟨"o"⟩)] }

/-- Concrete world with a cached actor, a cached comment, and no
memberships. -/
def worldCommentCached : World :=
  { emptyWorld with
    persons := [("u", ⟨"u"⟩)]
    objects := [("o", PostOrComment.Comment ⟨"o"⟩)] }

/-- Concrete world with one community and a zero score recorded for one
post. -/
def worldCommunity : World :=
  { emptyWorld with
    communities := [(0, ⟨"c"⟩)]
    scores := [("p", 0)] }

/-- Concrete world with a recorded previous vote of value -1. -/
def worldPrevVote : World :=
  { emptyWorld with
    votes := [(("u", "p"), -1)]
    scores := [("p", -1)] }

/-- A concrete vote envelope used by the witnesses: actor u, object o,
community c in cc. -/
def sampleVote : Vote :=
  { «to» := PublicUrl.Public
    object := "o"
    cc := ⟨"c"⟩
    kind := VoteType.Like
    common := { id := "id1", actor := "u" } }

theorem lookupA_filter_ne {κ α : Type} [DecidableEq κ] (l : List (κ × α))
    (k k' : κ) (h : k' ≠ k) :
    lookupA (l.filter (fun p => p.1 ≠ k)) k' = lookupA l k' := by
  induction l with
  | nil => rfl
  | cons p rest ih =>
    by_cases hp : p.1 = k
    · have hdrop : List.filter (fun q => decide (q.1 ≠ k)) (p :: rest)
          = List.filter (fun q => decide (q.1 ≠ k)) rest := by
        rw [List.filter_cons]
        simp [hp]
      rw [hdrop, ih]
      have hpk' : ¬ (p.1 = k') := by
        rw [hp]
        exact fun e => h e.symm
      simp only [lookupA]
      rw [if_neg hpk']
    · have hkeep : List.filter (fun q => decide (q.1 ≠ k)) (p :: rest)
          = p :: List.filter (fun q => decide (q.1 ≠ k)) rest := by
        rw [List.filter_cons]
        simp [hp]
      rw [hkeep]
      simp only [lookupA]
      by_cases hk : p.1 = k'
      · rw [if_pos hk, if_pos hk]
      · rw [if_neg hk, if_neg hk, ih]

theorem lookupA_upsertA_self {κ α : Type} [DecidableEq κ] (l : List (κ × α))
    (k : κ) (v : α) : lookupA (upsertA l k v) k = some v := by
  simp [upsertA, lookupA]

theorem lookupA_upsertA_ne {κ α : Type} [DecidableEq κ] (l : List (κ × α))
    (k k' : κ) (v : α) (h : k' ≠ k) :
    lookupA (upsertA l k v) k' = lookupA l k' := by
  have hk : ¬ (k = k') := fun e => h e.symm
  simp only [upsertA, lookupA]
  rw [if_neg hk]
  exact lookupA_filter_ne l k k' h

theorem get_person_preserves_scores_votes (uri : Url) (w : World) (b : Nat) :
    (get_or_fetch_and_upsert_person uri w b).2.1.scores = w.scores ∧
    (get_or_fetch_and_upsert_person uri w b).2.1.votes = w.votes := by
  unfold get_or_fetch_and_upsert_person
  split
  · exact ⟨rfl, rfl⟩
  · split
    · exact ⟨rfl, rfl⟩
    · split
      · exact ⟨rfl, rfl⟩
      · split <;> exact ⟨rfl, rfl⟩

theorem get_object_preserves_scores_votes (uri : Url) (w : World) (b : Nat) :
    (get_or_fetch_and_insert_post_or_comment uri w b).2.1.scores = w.scores ∧
    (get_or_fetch_and_insert_post_or_comment uri w b).2.1.votes = w.votes := by
  unfold get_or_fetch_and_insert_post_or_comment
  split
  · exact ⟨rfl, rfl⟩
  · split
    · exact ⟨rfl, rfl⟩
    · split
      · exact ⟨rfl, rfl⟩
      · split <;> exact ⟨rfl, rfl⟩

theorem generate_activity_id_inj (kind : VoteType) (m n : Nat)
    (h : generate_activity_id kind m = generate_activity_id kind n) : m = n := by
  have hl := congrArg String.length h
  simp [generate_activity_id, String.length] at hl
  exact hl

/-- C3: converting a VoteType to its integer encoding yields 1 for Like
and -1 for Dislike, and converting that integer back yields the same
VoteType again, so the two conversions are mutually inverse on the set
holding 1 and -1. -/
theorem vote_type_conversions_roundtrip :
    (∀ v : VoteType, VoteType.try_from (VoteType.to_i16 v) = .ok v) ∧
    (VoteType.to_i16 VoteType.Like = 1 ∧ VoteType.to_i16 VoteType.Dislike = -1) ∧
    (VoteType.try_from 1 = .ok VoteType.Like ∧
      VoteType.try_from (-1) = .ok VoteType.Dislike) := by
  refine ⟨fun v => ?_, by decide, by decide⟩
  cases v <;> decide

/-- C4: every i16 value other than 1 and -1 is rejected by the VoteType
conversion with the invalid vote value error; no such integer is coerced
or clamped to a VoteType. -/
theorem vote_type_try_from_rejects (n : Int) (hlo : -32768 ≤ n)
    (hhi : n ≤ 32767) (h1 : n ≠ 1) (h2 : n ≠ -1) :
    VoteType.try_from n = .error (.Msg "invalid vote value") := by
  unfold VoteType.try_from
  rw [if_neg h1, if_neg h2]

/-- Witness for C4 at the concrete in-range value 7. -/
theorem vote_type_try_from_rejects_witness :
    VoteType.try_from 7 = .error (.Msg "invalid vote value") :=
  vote_type_try_from_rejects 7 (by decide) (by decide) (by decide) (by decide)

/-- C8: when a previous vote by the same actor on the same object is
recorded, applying a new vote updates the aggregate score of the object
by the net delta (new value minus previous value) and overwrites the
stored per-actor vote; and applying the identical vote twice yields the
same aggregate scores as applying it once. -/
theorem apply_vote_net_delta_and_idempotent (w : World) (a o : Url)
    (prev x : Int) :
    (lookupA w.votes (a, o) = some prev →
      lookupA (applyVote w a o x).scores o
          = some ((lookupA w.scores o).getD 0 + (x - prev)) ∧
      lookupA (applyVote w a o x).votes (a, o) = some x) ∧
    (∀ u : Url, lookupA (applyVote (applyVote w a o x) a o x).scores u
          = lookupA (applyVote w a o x).scores u) := by
  constructor
  · intro h
    constructor
    · simp only [applyVote, h, Option.getD_some]
      exact lookupA_upsertA_self _ _ _
    · simp only [applyVote]
      exact lookupA_upsertA_self _ _ _
  · intro u
    by_cases hu : u = o
    · subst hu
      simp [applyVote, lookupA_upsertA_self]
    · simp [applyVote, lookupA_upsertA_ne _ _ _ _ hu]

/-- Witness for C8: in a world where actor u holds a recorded vote of -1
on object p with aggregate score -1, applying a vote of value 1 yields
the aggregate -1 + (1 - (-1)) and overwrites the stored vote with 1. -/
theorem apply_vote_net_delta_witness :
    lookupA (applyVote worldPrevVote "u" "p" 1).scores "p"
        = some ((lookupA worldPrevVote.scores "p").getD 0 + (1 - (-1))) ∧
    lookupA (applyVote worldPrevVote "u" "p" 1).votes ("u", "p") = some 1 :=
  (apply_vote_net_delta_and_idempotent worldPrevVote "u" "p" (-1) 1).1 (by decide)

/-- C1: Vote.verify performs its checks in order with short-circuit: a
structural failure of the common fields is returned at once with no
resolution, a failure of actor resolution is propagated, a resolved actor
that is not a member of the community named by the first cc entry fails
with UnauthorizedActor, and verify returns Ok exactly when all three
checks succeed. -/
theorem vote_verify_checks_in_order (v : Vote) (w : World) (b : Nat) :
    (∀ e, verify_activity v.common = .error e →
      v.verify w b = (.error e, w, b)) ∧
    (∀ e w' b', verify_activity v.common = .ok () →
      get_or_fetch_and_upsert_person v.common.actor w b = (.error e, w', b') →
      v.verify w b = (.error e, w', b')) ∧
    (∀ p w' b', verify_activity v.common = .ok () →
      get_or_fetch_and_upsert_person v.common.actor w b = (.ok p, w', b') →
      (p.actor_id, v.cc.get 0) ∉ w'.members →
      v.verify w b = (.error .UnauthorizedActor, w', b')) ∧
    ((v.verify w b).1 = .ok () ↔
      verify_activity v.common = .ok () ∧
      ∃ p w' b',
        get_or_fetch_and_upsert_person v.common.actor w b = (.ok p, w', b') ∧
        (p.actor_id, v.cc.get 0) ∈ w'.members) := by
  refine ⟨?_, ?_, ?_, ?_⟩
  · intro e he
    simp [Vote.verify, he]
  · intro e w' b' hv hr
    simp [Vote.verify, hv, verify_person_in_community, hr]
  · intro p w' b' hv hr hm
    simp [Vote.verify, hv, verify_person_in_community, hr, hm]
  · constructor
    · intro h
      cases hv : verify_activity v.common with
      | error e => simp [Vote.verify, hv] at h
      | ok u =>
        cases u
        refine ⟨rfl, ?_⟩
        rcases hr : get_or_fetch_and_upsert_person v.common.actor w b with
          ⟨r, w', b'⟩
        cases r with
        | error e =>
          simp [Vote.verify, hv, verify_person_in_community, hr] at h
        | ok p =>
          by_cases hm : (p.actor_id, v.cc.get 0) ∈ w'.members
          · exact ⟨p, w', b', rfl, hm⟩
          · simp [Vote.verify, hv, verify_person_in_community, hr, hm] at h
    · rintro ⟨hv, p, w', b', hr, hm⟩
      simp [Vote.verify, hv, verify_person_in_community, hr, hm]

/-- Witness for C1: the sample vote in a world where the actor is cached
but is not a member of the community named in cc fails verification with
UnauthorizedActor. -/
theorem vote_verify_checks_in_order_witness :
    Vote.verify sampleVote worldNoMember 5
      = (.error .UnauthorizedActor, worldNoMember, 5) :=
  (vote_verify_checks_in_order sampleVote worldNoMember 5).2.2.1
    ⟨"u"⟩ worldNoMember 5 (by decide) (by decide) (by decide)

/-- C6: when both the actor and the object of the envelope resolve,
Vote.receive dispatches by a total match on the kind of the resolved
object, the Post arm applying vote_post and the Comment arm applying
vote_comment with the vote kind of the activity, and no resolved object
kind falls through: receive succeeds for every resolved object. -/
theorem vote_receive_total_dispatch (v : Vote) (w : World) (b : Nat) :
    ∀ a w1 b1 obj w2 b2,
      get_or_fetch_and_upsert_person v.common.actor w b = (.ok a, w1, b1) →
      get_or_fetch_and_insert_post_or_comment v.object w1 b1
          = (.ok obj, w2, b2) →
      v.receive w b
          = ((match obj with
              | PostOrComment.Post p => vote_post v.kind a p w2
              | PostOrComment.Comment c => vote_comment v.kind a c w2).1,
             (match obj with
              | PostOrComment.Post p => vote_post v.kind a p w2
              | PostOrComment.Comment c => vote_comment v.kind a c w2).2,
             b2) ∧
      (v.receive w b).1 = .ok () := by
  intro a w1 b1 obj w2 b2 hA hO
  have hr : v.receive w b
      = ((match obj with
          | PostOrComment.Post p => vote_post v.kind a p w2
          | PostOrComment.Comment c => vote_comment v.kind a c w2).1,
         (match obj with
          | PostOrComment.Post p => vote_post v.kind a p w2
          | PostOrComment.Comment c => vote_comment v.kind a c w2).2,
         b2) := by
    cases obj with
    | Post p => simp [Vote.receive, hA, hO]
    | Comment c => simp [Vote.receive, hA, hO]
  refine ⟨hr, ?_⟩
  rw [hr]
  cases obj with
  | Post p => simp [vote_post]
  | Comment c => simp [vote_comment]

/-- Witness for C6: receiving the sample vote in a world with a cached
actor and a cached post succeeds. -/
theorem vote_receive_total_dispatch_witness :
    (Vote.receive sampleVote worldPostCached 5).1 = .ok () :=
  ((vote_receive_total_dispatch sampleVote worldPostCached 5
      ⟨"u"⟩ worldPostCached 5 (PostOrComment.Post ⟨"o"⟩) worldPostCached 5
      (by decide) (by decide))).2

/-- C7: when resolution of the actor or of the object fails inside
Vote.receive (for any error, in particular RecursionBudgetExceeded), the
error is returned and no vote effect is applied: the vote records and the
aggregate scores of the resulting world are those of the initial world. -/
theorem vote_receive_error_no_vote_effect (v : Vote) (w : World) (b : Nat) :
    (∀ e w' b',
      get_or_fetch_and_upsert_person v.common.actor w b = (.error e, w', b') →
      v.receive w b = (.error e, w', b') ∧
      w'.scores = w.scores ∧ w'.votes = w.votes) ∧
    (∀ a w1 b1 e w' b',
      get_or_fetch_and_upsert_person v.common.actor w b = (.ok a, w1, b1) →
      get_or_fetch_and_insert_post_or_comment v.object w1 b1
          = (.error e, w', b') →
      v.receive w b = (.error e, w', b') ∧
      w'.scores = w.scores ∧ w'.votes = w.votes) := by
  constructor
  · intro e w' b' hA
    have hp := get_person_preserves_scores_votes v.common.actor w b
    rw [hA] at hp
    exact ⟨by simp [Vote.receive, hA], hp.1, hp.2⟩
  · intro a w1 b1 e w' b' hA hO
    have hp := get_person_preserves_scores_votes v.common.actor w b
    rw [hA] at hp
    have ho := get_object_preserves_scores_votes v.object w1 b1
    rw [hO] at ho
    exact ⟨by simp [Vote.receive, hA, hO],
      ho.1.trans hp.1, ho.2.trans hp.2⟩

/-- Witness for C7: receiving the sample vote in the empty world with an
exhausted budget fails with RecursionBudgetExceeded and leaves the vote
records and scores unchanged. -/
theorem vote_receive_error_no_vote_effect_witness :
    Vote.receive sampleVote emptyWorld 0
        = (.error .RecursionBudgetExceeded, emptyWorld, 0) ∧
    emptyWorld.scores = emptyWorld.scores ∧
    emptyWorld.votes = emptyWorld.votes :=
  (vote_receive_error_no_vote_effect sampleVote emptyWorld 0).1
    .RecursionBudgetExceeded emptyWorld 0 (by decide)

/-- C9: Vote.receive performs no authorization check of its own: for
every envelope whose actor resolves and whose object resolves, to a post
or to a comment alike, the vote mutation is applied even though the actor
is not a member of the community named by the first cc entry of the
envelope; the vote record is written and the score of the resolved object
is moved by the net delta of the vote. -/
theorem vote_receive_no_authorization_check (v : Vote) (w : World) (b : Nat)
    (a : Person) (w1 : World) (b1 : Nat) (obj : PostOrComment) (w2 : World)
    (b2 : Nat)
    (hA : get_or_fetch_and_upsert_person v.common.actor w b = (.ok a, w1, b1))
    (hO : get_or_fetch_and_insert_post_or_comment v.object w1 b1
        = (.ok obj, w2, b2))
    (hNM : (a.actor_id, v.cc.get 0) ∉ w2.members) :
    (v.receive w b).1 = .ok () ∧
    lookupA (v.receive w b).2.1.votes (a.actor_id, obj.ap_id)
        = some (VoteType.to_i16 v.kind) ∧
    lookupA (v.receive w b).2.1.scores obj.ap_id
        = some ((lookupA w2.scores obj.ap_id).getD 0
            + (VoteType.to_i16 v.kind
                - (lookupA w2.votes (a.actor_id, obj.ap_id)).getD 0)) := by
  have hr : v.receive w b
      = (.ok (), applyVote w2 a.actor_id obj.ap_id (VoteType.to_i16 v.kind),
         b2) := by
    cases obj with
    | Post p => simp [Vote.receive, hA, hO, vote_post, PostOrComment.ap_id]
    | Comment c =>
      simp [Vote.receive, hA, hO, vote_comment, PostOrComment.ap_id]
  rw [hr]
  refine ⟨rfl, ?_, ?_⟩
  · simp only [applyVote]
    exact lookupA_upsertA_self _ _ _
  · simp only [applyVote]
    exact lookupA_upsertA_self _ _ _

/-- Witness for C9: the sample vote is received in a world with a cached
actor, a cached comment as the resolved object, and an empty membership
table, and the vote record for the actor on the comment is written with
value 1. -/
theorem vote_receive_no_authorization_check_witness :
    (Vote.receive sampleVote worldCommentCached 5).1 = .ok () ∧
    lookupA (Vote.receive sampleVote worldCommentCached 5).2.1.votes ("u", "o")
        = some (VoteType.to_i16 VoteType.Like) ∧
    lookupA (Vote.receive sampleVote worldCommentCached 5).2.1.scores "o"
        = some ((lookupA worldCommentCached.scores "o").getD 0
            + (VoteType.to_i16 VoteType.Like
                - (lookupA worldCommentCached.votes ("u", "o")).getD 0)) :=
  vote_receive_no_authorization_check sampleVote worldCommentCached 5
    ⟨"u"⟩ worldCommentCached 5 (PostOrComment.Comment ⟨"o"⟩)
    worldCommentCached 5 (by decide) (by decide) (by decide)

/-- C5: a successful Vote.send appends to the delivery log exactly one
entry holding the constructed envelope and an empty direct-recipient
list; the envelope has to Public, cc the one-element array holding the
community URI, actor the sending actor URI, object the target object URI,
and the activity id freshly minted at the current mint counter, distinct
from every id minted at any other counter value. -/
theorem vote_send_envelope_shape (object : PostOrComment) (actor : Person)
    (cid : Nat) (kind : VoteType) (w : World) (community : Community)
    (hc : lookupA w.communities cid = some community) :
    ∃ env : Vote,
      Vote.send object actor cid kind w =
        (.ok (), { w with
          nextActivityId := w.nextActivityId + 1
          delivered := w.delivered
              ++ [(AnnouncableActivities.Vote env, [])] }) ∧
      env.«to» = PublicUrl.Public ∧
      env.cc = ⟨community.actor_id⟩ ∧
      env.common.actor = actor.actor_id ∧
      env.object = object.ap_id ∧
      env.common.id = generate_activity_id kind w.nextActivityId ∧
      ∀ m : Nat, m ≠ w.nextActivityId →
        generate_activity_id kind m ≠ env.common.id := by
  refine ⟨{ «to» := PublicUrl.Public
            object := object.ap_id
            cc := ⟨community.actor_id⟩
            kind := kind
            common := { id := generate_activity_id kind w.nextActivityId
                        actor := actor.actor_id } },
    ?_, rfl, rfl, rfl, rfl, rfl, ?_⟩
  · simp [Vote.send, hc, send_to_community_new]
  · intro m hm heq
    exact hm (generate_activity_id_inj kind m w.nextActivityId heq)

/-- Witness for C5: sending a Like on the post p by actor u to community
0 in the concrete world succeeds and appends one delivery entry. -/
theorem vote_send_envelope_shape_witness :
    ∃ env : Vote,
      Vote.send (PostOrComment.Post ⟨"p"⟩) ⟨"u"⟩ 0 VoteType.Like worldCommunity =
        (.ok (), { worldCommunity with
          nextActivityId := worldCommunity.nextActivityId + 1
          delivered := worldCommunity.delivered
              ++ [(AnnouncableActivities.Vote env, [])] }) ∧
      env.«to» = PublicUrl.Public ∧
      env.cc = ⟨Community.actor_id ⟨"c"⟩⟩ ∧
      env.common.actor = Person.actor_id ⟨"u"⟩ ∧
      env.object = PostOrComment.ap_id (PostOrComment.Post ⟨"p"⟩) ∧
      env.common.id
          = generate_activity_id VoteType.Like worldCommunity.nextActivityId ∧
      ∀ m : Nat, m ≠ worldCommunity.nextActivityId →
        generate_activity_id VoteType.Like m ≠ env.common.id :=
  vote_send_envelope_shape (PostOrComment.Post ⟨"p"⟩) ⟨"u"⟩ 0 VoteType.Like
    worldCommunity ⟨"c"⟩ (by decide)

/-- C10: every Vote envelope carries exactly one cc entry by the type of
the cc field, so access to the first entry is total and determines the
whole entry list; and a successful Vote.send delivers an envelope whose
cc entry list is exactly the community URI. -/
theorem vote_cc_exactly_one (v : Vote) (object : PostOrComment)
    (actor : Person) (cid : Nat) (kind : VoteType) (w : World)
    (community : Community)
    (hc : lookupA w.communities cid = some community) :
    v.cc.toList = [v.cc.get 0] ∧ v.cc.toList.length = 1 ∧
    ∃ env : Vote,
      (Vote.send object actor cid kind w).2.delivered
          = w.delivered ++ [(AnnouncableActivities.Vote env, [])] ∧
      env.cc.toList = [community.actor_id] := by
  refine ⟨rfl, rfl,
    ⟨{ «to» := PublicUrl.Public
       object := object.ap_id
       cc := ⟨community.actor_id⟩
       kind := kind
       common := { id := generate_activity_id kind w.nextActivityId
                   actor := actor.actor_id } }, ?_, rfl⟩⟩
  simp [Vote.send, hc, send_to_community_new]

/-- Witness for C10 at the sample vote and the concrete community world. -/
theorem vote_cc_exactly_one_witness :
    sampleVote.cc.toList = [sampleVote.cc.get 0] ∧
    sampleVote.cc.toList.length = 1 ∧
    ∃ env : Vote,
      (Vote.send (PostOrComment.Post ⟨"p"⟩) ⟨"u"⟩ 0 VoteType.Like
          worldCommunity).2.delivered
        = worldCommunity.delivered ++ [(AnnouncableActivities.Vote env, [])] ∧
      env.cc.toList = [Community.actor_id ⟨"c"⟩] :=
  vote_cc_exactly_one sampleVote (PostOrComment.Post ⟨"p"⟩) ⟨"u"⟩ 0
    VoteType.Like worldCommunity ⟨"c"⟩ (by decide)

/-- C2 counterexample: in the concrete world holding community 0 and a
post p with aggregate score 0, Vote.send of a Like on p succeeds and
hands the envelope to the delivery collaborator, yet the aggregate score
of p is unchanged at 0 rather than moved by the delta 1 of Like, and no
per-actor vote record is written: the claim that send persists the local
vote effect is false on the code. -/
theorem vote_send_does_not_persist_cex :
    (Vote.send (PostOrComment.Post ⟨"p"⟩) ⟨"u"⟩ 0 VoteType.Like
        worldCommunity).1 = .ok () ∧
    (Vote.send (PostOrComment.Post ⟨"p"⟩) ⟨"u"⟩ 0 VoteType.Like
        worldCommunity).2.scores = worldCommunity.scores ∧
    lookupA (Vote.send (PostOrComment.Post ⟨"p"⟩) ⟨"u"⟩ 0 VoteType.Like
        worldCommunity).2.scores "p" = some 0 ∧
    ¬ lookupA (Vote.send (PostOrComment.Post ⟨"p"⟩) ⟨"u"⟩ 0 VoteType.Like
        worldCommunity).2.scores "p" = some 1 ∧
    (Vote.send (PostOrComment.Post ⟨"p"⟩) ⟨"u"⟩ 0 VoteType.Like
        worldCommunity).2.votes = worldCommunity.votes := by
  decide

/-- C2 amended: Vote.send reads the community, builds the envelope and
hands it to the delivery collaborator, without itself persisting any
local vote effect: the aggregate score table and the per-actor vote
records of the resulting world are exactly those of the initial world,
whatever the outcome; persisting the local vote is left to the caller. -/
theorem vote_send_preserves_scores_and_votes (object : PostOrComment)
    (actor : Person) (cid : Nat) (kind : VoteType) (w : World) :
    (Vote.send object actor cid kind w).2.scores = w.scores ∧
    (Vote.send object actor cid kind w).2.votes = w.votes := by
  unfold Vote.send send_to_community_new
  split <;> exact ⟨rfl, rfl⟩
